import Mathlib

/-!
Verification of the `@synet/identity` Identity unit
(`src/identity-types.ts`, Unit-architecture class, and `src/result.ts`).

The embedding below translates the construction methods of the Identity class
(`create`, `generate`), delegation (`sign`, `verify`) and projection
(`toJSON`, `toDomain`, `public`, `present`) methods.  External
collaborators (`@synet/keys`, `@synet/did`, `@synet/credential`,
`@synet/unit`) are represented through the interfaces the core consumes:
fallible external calls become `Option`-returning fields of an `Env`
record, component handles become structures carrying the behaviour the
core observes, and the capability registry substrate is modelled from the
spec as a named-capability store with `can`/`execute` dispatch.
JavaScript objects produced by the projection methods are additionally
given a field-level view (`List (String × JsVal)`) so that statements
about which fields an object carries are faithful to the runtime values.
-/

namespace SynetIdentity

/-- Error value thrown inside `generate`/`create` bodies; all throws in the
source are `new Error(message)`. -/
structure JsError where
  message : String
deriving Repr, DecidableEq

/-- Result envelope from `src/result.ts`: success with a value, or failure
with a message and an optional cause (the `data` field is never populated
by the identity code and is omitted). -/
inductive Result (α : Type) where
  | success (value : α)
  | fail (message : String) (cause : Option JsError)

/-- Mirrors the `isSuccess` getter of `src/result.ts`. -/
def Result.isSuccess {α : Type} : Result α → Bool
  | .success _ => true
  | .fail _ _ => false

/-- Mirrors the `isFailure` getter of `src/result.ts`. -/
def Result.isFailure {α : Type} : Result α → Bool
  | .success _ => false
  | .fail _ _ => true

/-- Extracts the success value, with a fallback for the failure case (used
only to state closed theorems about concrete runs). -/
def Result.getOr {α : Type} : Result α → α → α
  | .success v, _ => v
  | .fail _ _, d => d

/-- JavaScript string truthiness of an optional string: `undefined` and the
empty string are falsy. -/
def strFalsy : Option String → Bool
  | none => true
  | some s => s.isEmpty

/-- Truthiness (`if (x)`) for an optional string. -/
def strTruthy (o : Option String) : Bool := !(strFalsy o)

/-- JavaScript `a || b` on an optional string with a string default. -/
def orDefault : Option String → String → String
  | none, d => d
  | some s, d => if s.isEmpty then d else s

/-- Unit schema produced by `createUnitSchema` (id and version). -/
structure UnitSchema where
  id : String
  version : String
deriving Repr, DecidableEq

/-- Metadata map; the identity code only stores and passes it through. -/
abbrev Metadata := List (String × String)

/-- Signer handle (external, `@synet/keys`): owns key material, signs,
verifies, and exposes its public key in hex form. -/
structure Signer where
  publicKeyHex : String
  sign : String → String
  verify : String → String → Bool

/-- Key handle derived from a signer via `signer.createKey()` (external);
opaque to the identity core beyond its teaching contract. -/
structure KeyUnit where
  id : String
deriving Repr, DecidableEq

/-- DID handle (external, `@synet/did`): `generateKey()` deterministically
returns the DID string derived from the public key it was created from. -/
structure DIDUnit where
  generateKey : String
deriving Repr, DecidableEq

/-- Credential component handle (external, `@synet/credential`); the core
only creates it and lets it learn the capabilities of the key handle. -/
structure CredentialUnit where
  learned : List String
deriving Repr, DecidableEq

/-- Party reference inside a credential subject (id and name). -/
structure PartyRef where
  id : String
  name : String
deriving Repr, DecidableEq

/-- Credential subject built by `generate`: holder and issuedBy. -/
structure CredSubject where
  holder : PartyRef
  issuedBy : PartyRef
deriving Repr, DecidableEq

/-- Verifiable credential as the identity core observes it: subject, type,
issuer, and an opaque proof produced by the external component. -/
structure VC where
  subject : CredSubject
  type : String
  issuer : String
  proof : String
deriving Repr, DecidableEq

/-- A credential-typed field value: either a real credential or the empty
placeholder object `\x7b\x7d` that `create` uses when the config has none. -/
inductive CredentialVal where
  | empty
  | vc (c : VC)
deriving Repr, DecidableEq

/-- Key pair returned by `generateKeyPair` (hex format). -/
structure KeyPair where
  publicKey : String
  privateKey : String
deriving Repr, DecidableEq

/-- Dynamic (JavaScript) value: covers every value kind that crosses the
capability registry or appears as a field of a projected object. -/
inductive JsVal where
  | str (s : String)
  | bool (b : Bool)
  | date (n : Nat)
  | undefinedVal
  | schema (u : UnitSchema)
  | cred (c : CredentialVal)
  | meta (m : Metadata)
  | didRef (d : DIDUnit)
  | signerRef (s : Signer)
  | keyRef (k : KeyUnit)
  | credUnitRef (c : CredentialUnit)

/-- View of an optional string as a JavaScript field value. -/
def optStrVal : Option String → JsVal
  | some s => .str s
  | none => .undefinedVal

/-- A learned capability: a callable taking positional arguments.
Modelled from the spec: the registry "has no notion of type safety beyond
what the caller/callee agree on positionally". -/
abbrev CapFn := List JsVal → JsVal

/-- Capability registry state of one unit. Modelled from the spec: the
`@synet/unit` substrate (external to `src/`) is a "per-instance mapping
from namespaced capability name → callable". -/
abbrev Registry := List (String × CapFn)

/-- Environment of external component operations the identity core calls.
Each fallible external call returns `Option` (`none` models a null/falsy
return), `issueProof` models the external credential proof generation, and
the three `teach` fields model the teaching contracts learned in
`generate` step 10. -/
structure Env where
  generateKeyPair : Option KeyPair
  hexToPem : String → Option String
  hexPrivateKeyToPem : String → Option String
  signerCreate : String → String → String → Option Signer
  createKey : Signer → Option KeyUnit
  didCreate : String → String → Option DIDUnit
  credentialCreate : CredentialUnit
  issueProof : CredSubject → String → String → Result String
  now : Nat
  signerTeach : Signer → Registry
  keyTeach : KeyUnit → Registry
  credentialTeach : CredentialUnit → Registry

/-- Mirrors `credentialUnit.learn([key.teach()])`: the credential component
records the capabilities of the key handle. -/
def CredentialUnit.learnKey (c : CredentialUnit) (k : KeyUnit) : CredentialUnit :=
  { c with learned := c.learned ++ [k.id] }

/-- Modelled from the spec: the external credential component "issues and
verifies verifiable credentials for a given subject/issuer/type"; the
canonicalization/proof step is external and may fail (`env.issueProof`). -/
def CredentialUnit.issueCredential (env : Env) (_c : CredentialUnit)
    (subject : CredSubject) (ty issuer : String) : Result VC :=
  match env.issueProof subject ty issuer with
  | .success p => .success ⟨subject, ty, issuer, p⟩
  | .fail m cause => .fail m cause

/-- Type `IdentityConfig` from `identity-types.ts`: external input to
`create`.  The four required string fields are modelled as optional to
express runtime absence (`undefined`), which the validation gate checks
for alongside emptiness. -/
structure IdentityConfig where
  «alias» : Option String
  did : Option String
  publicKeyHex : Option String
  privateKeyHex : Option String
  kid : Option String
  provider : Option String
  credential : Option CredentialVal
  metadata : Option Metadata
  createdAt : Option Nat

/-- Type `IdentityProps`: internal state after validation, including the
composed unit handles, exactly the fields the source constructs. -/
structure IdentityProps where
  dna : UnitSchema
  «alias» : String
  did : String
  kid : String
  publicKeyHex : String
  privateKeyHex : Option String
  provider : String
  credential : CredentialVal
  metadata : Metadata
  createdAt : Nat
  didUnit : DIDUnit
  signerUnit : Signer
  keyUnit : KeyUnit
  credentialUnit : CredentialUnit

/-- An Identity instance: its props plus the capability registry held by
the `Unit` base class (populated by `learn`). -/
structure Identity where
  props : IdentityProps
  caps : Registry

/-- Modelled from the spec: `can(name)` checks whether the capability
registry contains an entry under the namespaced name. -/
def Identity.can (i : Identity) (name : String) : Bool :=
  (i.caps.lookup name).isSome

/-- Modelled from the spec: `execute(name, ...args)` invokes the stored
callable with the positional arguments of the call and returns its result. -/
def Identity.execute (i : Identity) (name : String) (args : List JsVal) : JsVal :=
  match i.caps.lookup name with
  | some f => f args
  | none => JsVal.undefinedVal

/-- Message returned by the validation gate of `create`. -/
def requiredFieldsMsg : String := "Required fields: alias, publicKeyHex, privateKeyHex, did"

/-- Body of `Identity.create` (the code inside the `try`): either throws
(`Except.error`) or returns a `Result`.  Mirrors `identity-types.ts`
lines 649-722. -/
def createBody (env : Env) (config : IdentityConfig) : Except JsError (Result Identity) :=
  if strFalsy config.privateKeyHex || strFalsy config.publicKeyHex
      || strFalsy config.did || strFalsy config.«alias» then
    .ok (Result.fail requiredFieldsMsg none)
  else
    match env.hexPrivateKeyToPem (config.privateKeyHex.getD ""),
          env.hexToPem (config.publicKeyHex.getD "") with
    | some privateKeyPEM, some publicKeyPEM =>
      match env.signerCreate privateKeyPEM publicKeyPEM
          (orDefault config.«alias» "unknown" ++ "-signer") with
      | none => .ok (Result.fail "Failed to create signer from key material" none)
      | some signer =>
        match env.createKey signer with
        | none => .ok (Result.fail "Failed to create key from signer" none)
        | some key =>
          match env.didCreate (config.publicKeyHex.getD "") (orDefault config.«alias» "unknown") with
          | none => .ok (Result.fail "Failed to reconstruct DID" none)
          | some didUnit =>
            let credentialUnit := env.credentialCreate.learnKey key
            let props : IdentityProps := {
              dna := ⟨"identity", "1.0.0"⟩
              «alias» := orDefault config.«alias» "unknown"
              did := orDefault config.did "did:key:unknown"
              kid := orDefault config.kid (config.publicKeyHex.getD "")
              publicKeyHex := config.publicKeyHex.getD ""
              privateKeyHex := config.privateKeyHex
              provider := orDefault config.provider "did:key"
              credential := config.credential.getD CredentialVal.empty
              metadata := config.metadata.getD []
              createdAt := config.createdAt.getD env.now
              didUnit := didUnit
              signerUnit := signer
              keyUnit := key
              credentialUnit := credentialUnit }
            .ok (Result.success ⟨props, []⟩)
    | _, _ => .error ⟨"Failed to convert keys to PEM format"⟩

/-- The `catch` wrapper shared by `create` and `generate`: a thrown
`Error` becomes `Result.fail(error.message, error)`. -/
def tryCatch {α : Type} : Except JsError (Result α) → Result α
  | .ok r => r
  | .error e => Result.fail e.message (some e)

/-- Method `Identity.create(config)`: validation gate, reconstruction of the
composed units, and assembly of props from the config, wrapped in
try/catch. -/
def Identity.create (env : Env) (config : IdentityConfig) : Result Identity :=
  tryCatch (createBody env config)

/-- Body of `Identity.generate` (the code inside the `try`).  Mirrors
`identity-types.ts` lines 733-853; the credential-issuance failure is an
early `Result.fail` return (not a throw), every other failure throws. -/
def generateBody (env : Env) («alias» : String) : Except JsError (Result Identity) :=
  match env.generateKeyPair with
  | none => .error ⟨"Failed to generate key pair"⟩
  | some keyPair =>
    match env.hexToPem keyPair.publicKey, env.hexPrivateKeyToPem keyPair.privateKey with
    | some publicKeyPEM, some privateKeyPEM =>
      match env.signerCreate privateKeyPEM publicKeyPEM («alias» ++ "-signer") with
      | none => .error ⟨"Failed to create signer from key pair"⟩
      | some signer =>
        match env.createKey signer with
        | none => .error ⟨"Failed to create key from signer"⟩
        | some key =>
          if signer.publicKeyHex.isEmpty then
            .error ⟨"Failed to get public key hex"⟩
          else
            let publicKeyHex := signer.publicKeyHex
            let privateKeyHex := keyPair.privateKey
            match env.didCreate publicKeyHex «alias» with
            | none => .error ⟨"Failed to create DID from public key"⟩
            | some didUnit =>
              if didUnit.generateKey.isEmpty then
                .error ⟨"Failed to generate DID string"⟩
              else
                let didString := didUnit.generateKey
                let credentialUnit := env.credentialCreate.learnKey key
                let subject : CredSubject := ⟨⟨didString, «alias»⟩, ⟨didString, «alias»⟩⟩
                match CredentialUnit.issueCredential env credentialUnit
                    subject "IdentityCredential" didString with
                | .fail m _ =>
                  .ok (Result.fail ("Failed to issue identity credential: " ++ m) none)
                | .success credential =>
                  let props : IdentityProps := {
                    dna := ⟨"identity", "1.0.1"⟩
                    «alias» := «alias»
                    did := didString
                    kid := publicKeyHex
                    publicKeyHex := publicKeyHex
                    privateKeyHex := some privateKeyHex
                    provider := "did:key"
                    credential := .vc credential
                    metadata := []
                    createdAt := env.now
                    didUnit := didUnit
                    signerUnit := signer
                    keyUnit := key
                    credentialUnit := credentialUnit }
                  .ok (Result.success ⟨props,
                    env.signerTeach signer ++ env.keyTeach key
                      ++ env.credentialTeach credentialUnit⟩)
    | _, _ => .error ⟨"Failed to convert keys to PEM format"⟩

/-- Method `Identity.generate(alias)`: fresh key material, signer, DID, self-signed
credential, props assembly, and learning of the teaching contracts of the
composed units, wrapped in try/catch. -/
def Identity.generate (env : Env) («alias» : String) : Result Identity :=
  tryCatch (generateBody env «alias»)

/-- Capability-missing error thrown by `sign` (quotes around the
capability name omitted from the source string). -/
def signCapMissingMsg (dnaId : String) : String :=
  "[" ++ dnaId ++ "] Cannot sign - missing signer.sign capability. Learn from: Signer.create().teach()"

/-- Method `Identity.sign(data)`: learned `signer.sign` capability first, bound
signer if a private key is held, else a thrown capability-missing error. -/
def Identity.sign (i : Identity) (data : String) : Except String JsVal :=
  if i.can "signer.sign" then
    .ok (i.execute "signer.sign" [.str data])
  else if strTruthy i.props.privateKeyHex then
    .ok (.str (i.props.signerUnit.sign data))
  else
    .error (signCapMissingMsg i.props.dna.id)

/-- Method `Identity.verify(data, signature)`: learned `signer.verify` capability
first, otherwise the bound signer unit unconditionally. -/
def Identity.verify (i : Identity) (data signature : String) : Except String JsVal :=
  if i.can "signer.verify" then
    .ok (i.execute "signer.verify" [.str data, .str signature])
  else
    .ok (.bool (i.props.signerUnit.verify data signature))

/-- Domain record `IIdentity` (output of `toDomain`, persisted form). -/
structure IIdentityRec where
  «alias» : String
  did : String
  kid : String
  publicKeyHex : String
  privateKeyHex : Option String
  provider : String
  credential : CredentialVal
  metadata : Metadata
  createdAt : Nat

/-- Method `toDomain()`: the nine-field domain record read from props. -/
def Identity.toDomain (i : Identity) : IIdentityRec :=
  { «alias» := i.props.«alias»
    did := i.props.did
    kid := i.props.kid
    publicKeyHex := i.props.publicKeyHex
    privateKeyHex := i.props.privateKeyHex
    provider := i.props.provider
    credential := i.props.credential
    metadata := i.props.metadata
    createdAt := i.props.createdAt }

/-- Method `toJSON()`: transcribed separately from its own object literal. -/
def Identity.toJSON (i : Identity) : IIdentityRec :=
  { «alias» := i.props.«alias»
    did := i.props.did
    kid := i.props.kid
    publicKeyHex := i.props.publicKeyHex
    privateKeyHex := i.props.privateKeyHex
    provider := i.props.provider
    credential := i.props.credential
    metadata := i.props.metadata
    createdAt := i.props.createdAt }

/-- Field-level view of a domain record as a JavaScript object, in the
key order of the object literal in the source. -/
def IIdentityRec.obj (r : IIdentityRec) : List (String × JsVal) :=
  [("alias", .str r.«alias»),
   ("did", .str r.did),
   ("kid", .str r.kid),
   ("publicKeyHex", .str r.publicKeyHex),
   ("privateKeyHex", optStrVal r.privateKeyHex),
   ("provider", .str r.provider),
   ("credential", .cred r.credential),
   ("metadata", .meta r.metadata),
   ("createdAt", .date r.createdAt)]

/-- Field-level view of the props object, in the key order both `create`
and `generate` construct it with. -/
def Identity.propsObj (i : Identity) : List (String × JsVal) :=
  [("dna", .schema i.props.dna),
   ("alias", .str i.props.«alias»),
   ("did", .str i.props.did),
   ("kid", .str i.props.kid),
   ("publicKeyHex", .str i.props.publicKeyHex),
   ("privateKeyHex", optStrVal i.props.privateKeyHex),
   ("provider", .str i.props.provider),
   ("credential", .cred i.props.credential),
   ("metadata", .meta i.props.metadata),
   ("createdAt", .date i.props.createdAt),
   ("didUnit", .didRef i.props.didUnit),
   ("signerUnit", .signerRef i.props.signerUnit),
   ("keyUnit", .keyRef i.props.keyUnit),
   ("credentialUnit", .credUnitRef i.props.credentialUnit)]

/-- Method `public()`: rest-spread of `this.props` with `privateKeyHex`
destructured away — every own field of props except the private key. -/
def Identity.publicObj (i : Identity) : List (String × JsVal) :=
  i.propsObj.filter (fun kv => kv.1 != "privateKeyHex")

/-- Method `present()`: the three-field presentation object. -/
def Identity.presentObj (i : Identity) : List (String × JsVal) :=
  [("did", .str i.props.did),
   ("publicKeyHex", .str i.props.publicKeyHex),
   ("credential", .cred i.props.credential)]

/-- Reading a domain record back in as a `create` config (structural
typing: `IIdentity` is accepted where `IdentityConfig` is expected). -/
def IIdentityRec.asConfig (r : IIdentityRec) : IdentityConfig :=
  { «alias» := some r.«alias»
    did := some r.did
    publicKeyHex := some r.publicKeyHex
    privateKeyHex := r.privateKeyHex
    kid := some r.kid
    provider := some r.provider
    credential := some r.credential
    metadata := some r.metadata
    createdAt := some r.createdAt }

/-- The domain record of `toDomain()` fed back into `create` as its config. -/
def Identity.toDomainConfig (i : Identity) : IdentityConfig :=
  i.toDomain.asConfig


/-- Concrete signer fixture (external handle) used for witnesses. -/
def signer0 : Signer :=
  { publicKeyHex := "pubhex"
    sign := fun d => "sig-" ++ d
    verify := fun _ _ => true }

/-- Concrete key handle fixture. -/
def key0 : KeyUnit := ⟨"key0"⟩

/-- Concrete DID handle fixture. -/
def did0 : DIDUnit := ⟨"did:key:z123"⟩

/-- Concrete credential component fixture. -/
def credentialUnit0 : CredentialUnit := ⟨[]⟩

/-- Well-behaved concrete environment: every external call succeeds. -/
def env0 : Env :=
  { generateKeyPair := some ⟨"pubhex", "privhex"⟩
    hexToPem := fun s => some ("PEMPUB:" ++ s)
    hexPrivateKeyToPem := fun s => some ("PEMPRIV:" ++ s)
    signerCreate := fun _ _ _ => some signer0
    createKey := fun _ => some key0
    didCreate := fun _ _ => some did0
    credentialCreate := credentialUnit0
    issueProof := fun _ _ _ => .success "proof0"
    now := 1700000000
    signerTeach := fun s =>
      [("signer.sign", fun args => match args with
          | [JsVal.str d] => JsVal.str (s.sign d)
          | _ => JsVal.undefinedVal),
       ("signer.verify", fun args => match args with
          | [JsVal.str d, JsVal.str g] => JsVal.bool (s.verify d g)
          | _ => JsVal.undefinedVal)]
    keyTeach := fun _ => []
    credentialTeach := fun _ => [] }

/-- A fully populated, valid `create` config. -/
def configFull : IdentityConfig :=
  { «alias» := some "alice"
    did := some "did:key:zABC"
    publicKeyHex := some "pubhex"
    privateKeyHex := some "privhex"
    kid := none
    provider := none
    credential := none
    metadata := none
    createdAt := none }

/-- Fallback identity value used only to state closed theorems about
concrete successful runs. -/
def fallbackIdentity : Identity :=
  ⟨{ dna := ⟨"identity", "0"⟩
     «alias» := "fallback"
     did := "did:key:fallback"
     kid := "fallback"
     publicKeyHex := "fallback"
     privateKeyHex := none
     provider := "did:key"
     credential := .empty
     metadata := []
     createdAt := 0
     didUnit := did0
     signerUnit := signer0
     keyUnit := key0
     credentialUnit := credentialUnit0 }, []⟩

/-- The identity produced by `create` on the concrete valid config. -/
def identityC : Identity := (Identity.create env0 configFull).getOr fallbackIdentity

example : (Identity.create env0 configFull).isSuccess = true := rfl

/-- All fallible operations of `env0` succeed. -/
structure EnvTotal (env : Env) : Prop where
  hexToPem_ok : ∀ s, ∃ r, env.hexToPem s = some r
  hexPrivateKeyToPem_ok : ∀ s, ∃ r, env.hexPrivateKeyToPem s = some r
  signerCreate_ok : ∀ a b c, ∃ s, env.signerCreate a b c = some s
  createKey_ok : ∀ s, ∃ k, env.createKey s = some k
  didCreate_ok : ∀ a b, ∃ d, env.didCreate a b = some d

theorem env0_total : EnvTotal env0 :=
  ⟨fun _ => ⟨_, rfl⟩, fun _ => ⟨_, rfl⟩, fun _ _ _ => ⟨_, rfl⟩,
   fun _ => ⟨_, rfl⟩, fun _ _ => ⟨_, rfl⟩⟩

/-- C7: for every Identity, however constructed, the objects returned by
`public()` and `present()` carry no private-key hex field. -/
theorem c7_projections_omit_private_key (i : Identity) :
    i.publicObj.lookup "privateKeyHex" = none ∧
    i.presentObj.lookup "privateKeyHex" = none := by
  constructor <;>
    simp [Identity.publicObj, Identity.propsObj, Identity.presentObj, List.lookup]

/-- C10: for every Identity, `toJSON()` and `toDomain()` return equal
records — the same nine fields with identical values. -/
theorem c10_toJSON_eq_toDomain (i : Identity) :
    i.toJSON = i.toDomain ∧ i.toJSON.obj = i.toDomain.obj :=
  ⟨rfl, rfl⟩

/-- Substring test, used to state that an error message names a field. -/
def containsStr (hay needle : String) : Bool := decide (needle.data <:+: hay.data)

/-- C2: when any of alias, did, publicKeyHex, privateKeyHex is absent or
empty, `create` returns a failure result (no throw — the body yields the
failure directly, so no Identity is constructed), and the failure message
names each required field, in particular the missing one. -/
theorem c2_create_missing_field_fails (env : Env) (config : IdentityConfig)
    (h : strFalsy config.«alias» = true ∨ strFalsy config.did = true ∨
         strFalsy config.publicKeyHex = true ∨ strFalsy config.privateKeyHex = true) :
    Identity.create env config = Result.fail requiredFieldsMsg none ∧
    createBody env config = Except.ok (Result.fail requiredFieldsMsg none) ∧
    containsStr requiredFieldsMsg "alias" = true ∧
    containsStr requiredFieldsMsg "did" = true ∧
    containsStr requiredFieldsMsg "publicKeyHex" = true ∧
    containsStr requiredFieldsMsg "privateKeyHex" = true := by
  have hguard : (strFalsy config.privateKeyHex || strFalsy config.publicKeyHex
      || strFalsy config.did || strFalsy config.«alias») = true := by
    rcases h with h | h | h | h <;> simp [h]
  refine ⟨?_, ?_, by decide, by decide, by decide, by decide⟩ <;>
    simp [Identity.create, createBody, tryCatch, hguard]

/-- Config with the alias absent (the example from the spec). -/
def configMissingAlias : IdentityConfig := { configFull with «alias» := none }

/-- Witness for C2 at a concrete input: `create` on a config without an
alias fails with the message naming the required fields. -/
theorem c2_witness :
    Identity.create env0 configMissingAlias = Result.fail requiredFieldsMsg none ∧
    containsStr requiredFieldsMsg "alias" = true :=
  ⟨(c2_create_missing_field_fails env0 configMissingAlias (Or.inl (by decide))).1,
   (c2_create_missing_field_fails env0 configMissingAlias (Or.inl (by decide))).2.2.1⟩

/-- Capability override function fixture: returns a distinguishable value. -/
def overrideFn : CapFn := fun _ => JsVal.str "override"

/-- The created identity after an external teacher installed a replacement
signer.sign capability. -/
def identityOverride : Identity := ⟨identityC.props, [("signer.sign", overrideFn)]⟩

/-- State of the created identity with no private-key material and no
learned capabilities (the capability-missing state of C4). -/
def identityNoKey : Identity := ⟨{ identityC.props with privateKeyHex := none }, []⟩

/-- C3: sign first consults the registry under "signer.sign" and returns
the result of the learned capability on the given argument; with no such entry
and a private-key hex held, it invokes the bound signer directly on the
same data. -/
theorem c3_sign_resolution (i : Identity) (data : String) :
    (∀ f, i.caps.lookup "signer.sign" = some f →
        i.sign data = Except.ok (f [JsVal.str data])) ∧
    (i.caps.lookup "signer.sign" = none → strTruthy i.props.privateKeyHex = true →
        i.sign data = Except.ok (JsVal.str (i.props.signerUnit.sign data))) := by
  constructor
  · intro f hf
    simp [Identity.sign, Identity.can, Identity.execute, hf]
  · intro hnone hpk
    simp [Identity.sign, Identity.can, Identity.execute, hnone, hpk]

/-- Witness for C3: with a learned override, sign returns the distinguishable
override value; on the plain created identity it returns the signature from
the bound signer. -/
theorem c3_witness :
    identityOverride.sign "msg" = Except.ok (JsVal.str "override") ∧
    identityC.sign "msg" = Except.ok (JsVal.str (identityC.props.signerUnit.sign "msg")) :=
  ⟨(c3_sign_resolution identityOverride "msg").1 overrideFn rfl,
   (c3_sign_resolution identityC "msg").2 rfl (by decide)⟩

/-- C4 counterexample: verify, invoked on a state with no learned override
and no private-key material, does not raise — it returns the bound
verdict of the bound signer. -/
theorem c4_counterexample :
    identityNoKey.verify "data" "sig" = Except.ok (JsVal.bool true) ∧
    ∀ m, identityNoKey.verify "data" "sig" ≠ Except.error m := by
  have h1 : identityNoKey.verify "data" "sig" = Except.ok (JsVal.bool true) := rfl
  exact ⟨h1, fun m hm => Except.noConfusion (h1 ▸ hm)⟩

/-- C4 amended: with neither a learned override nor private-key material,
sign raises the capability-missing error directly; verify never raises a
capability-missing condition — without an override it falls back to the
bound signer unit and returns its result. -/
theorem c4_sign_raises_verify_falls_back (i : Identity) (data signature : String)
    (hs : i.caps.lookup "signer.sign" = none)
    (hpk : strTruthy i.props.privateKeyHex = false) :
    i.sign data = Except.error (signCapMissingMsg i.props.dna.id) ∧
    (i.caps.lookup "signer.verify" = none →
      i.verify data signature
        = Except.ok (JsVal.bool (i.props.signerUnit.verify data signature))) := by
  constructor
  · simp [Identity.sign, Identity.can, hs, hpk]
  · intro hv
    simp [Identity.verify, Identity.can, hv]

/-- Witness for C4 (amended) at the concrete no-key state. -/
theorem c4_witness :
    identityNoKey.sign "data"
      = Except.error (signCapMissingMsg identityNoKey.props.dna.id) ∧
    identityNoKey.verify "data" "sig"
      = Except.ok (JsVal.bool (identityNoKey.props.signerUnit.verify "data" "sig")) := by
  have h := c4_sign_raises_verify_falls_back identityNoKey "data" "sig" rfl (by decide)
  exact ⟨h.1, h.2 rfl⟩

/-- Field names of the domain record, in literal order. -/
def domainFieldNames : List String :=
  ["alias", "did", "kid", "publicKeyHex", "privateKeyHex", "provider",
   "credential", "metadata", "createdAt"]

/-- Field names of the object public() actually returns, in literal order. -/
def publicFieldNames : List String :=
  ["dna", "alias", "did", "kid", "publicKeyHex", "provider", "credential",
   "metadata", "createdAt", "didUnit", "signerUnit", "keyUnit", "credentialUnit"]

/-- C1 counterexample: on the concrete created identity, public() carries
a dna field, which the domain record does not have at all — so public()
is not the domain record with only the private-key hex removed. -/
theorem c1_counterexample :
    identityC.publicObj.lookup "dna" = some (JsVal.schema ⟨"identity", "1.0.0"⟩) ∧
    identityC.toDomain.obj.lookup "dna" = none :=
  ⟨rfl, rfl⟩

/-- C1 amended: public() is the props object with exactly the private-key
hex removed — it agrees with the domain record on every remaining
domain-record field and has no privateKeyHex field, but additionally
carries the internal props fields dna, didUnit, signerUnit, keyUnit and
credentialUnit. -/
theorem c1_public_is_props_minus_private_key (i : Identity) :
    i.publicObj.map Prod.fst = publicFieldNames ∧
    i.publicObj.lookup "privateKeyHex" = none ∧
    (∀ k, k ∈ domainFieldNames → k ≠ "privateKeyHex" →
      i.publicObj.lookup k = i.toDomain.obj.lookup k) := by
  refine ⟨rfl, ?_, ?_⟩
  · simp [Identity.publicObj, Identity.propsObj, List.lookup]
  intro k hk hne
  fin_cases hk <;>
    first
      | rfl
      | exact absurd rfl hne

/-- Witness for C1 (amended): concrete agreement on the alias field and
absence of the private key. -/
theorem c1_witness :
    identityC.publicObj.lookup "alias" = identityC.toDomain.obj.lookup "alias" ∧
    identityC.publicObj.lookup "privateKeyHex" = none := by
  have h := c1_public_is_props_minus_private_key identityC
  exact ⟨h.2.2 "alias" (by simp [domainFieldNames]) (by decide), h.2.1⟩

/-- C8: generate and create always return a success or a failure result,
and any exception thrown inside the body is caught and converted into a
failure carrying the message of the error and the error itself as cause. -/
theorem c8_no_throw_across_boundary (env : Env) («alias» : String)
    (config : IdentityConfig) :
    ((∃ v, Identity.generate env «alias» = Result.success v) ∨
      (∃ m c, Identity.generate env «alias» = Result.fail m c)) ∧
    (∀ e, generateBody env «alias» = Except.error e →
      Identity.generate env «alias» = Result.fail e.message (some e)) ∧
    ((∃ v, Identity.create env config = Result.success v) ∨
      (∃ m c, Identity.create env config = Result.fail m c)) ∧
    (∀ e, createBody env config = Except.error e →
      Identity.create env config = Result.fail e.message (some e)) := by
  refine ⟨?_, ?_, ?_, ?_⟩
  · cases hg : Identity.generate env «alias» with
    | success v => exact Or.inl ⟨v, rfl⟩
    | fail m c => exact Or.inr ⟨m, c, rfl⟩
  · intro e he
    simp [Identity.generate, tryCatch, he]
  · cases hc : Identity.create env config with
    | success v => exact Or.inl ⟨v, rfl⟩
    | fail m c => exact Or.inr ⟨m, c, rfl⟩
  · intro e he
    simp [Identity.create, tryCatch, he]

/-- Environment whose key-pair generation returns null. -/
def envNoKeyPair : Env := { env0 with generateKeyPair := none }

/-- Witness for C8: the key-generation exception surfaces as a failure
result carrying the message and the error as cause. -/
theorem c8_witness :
    Identity.generate envNoKeyPair "alice"
      = Result.fail "Failed to generate key pair" (some ⟨"Failed to generate key pair"⟩) :=
  (c8_no_throw_across_boundary envNoKeyPair "alice" configFull).2.1
    ⟨"Failed to generate key pair"⟩ rfl

/-- Shared success lemma: on a valid config under an environment whose
external calls succeed, create succeeds and assembles the record directly
from the config with the documented defaults, learning nothing into the
registry. -/
theorem create_valid_spec (env : Env) (config : IdentityConfig)
    (ht : EnvTotal env)
    (ha : strFalsy config.«alias» = false) (hd : strFalsy config.did = false)
    (hpub : strFalsy config.publicKeyHex = false)
    (hpriv : strFalsy config.privateKeyHex = false) :
    ∃ j : Identity, Identity.create env config = Result.success j ∧
      j.props.did = orDefault config.did "did:key:unknown" ∧
      j.props.publicKeyHex = config.publicKeyHex.getD "" ∧
      j.props.privateKeyHex = config.privateKeyHex ∧
      j.props.kid = orDefault config.kid (config.publicKeyHex.getD "") ∧
      j.props.credential = config.credential.getD CredentialVal.empty ∧
      j.props.«alias» = orDefault config.«alias» "unknown" ∧
      j.props.provider = orDefault config.provider "did:key" ∧
      j.props.metadata = config.metadata.getD [] ∧
      j.props.createdAt = config.createdAt.getD env.now ∧
      j.caps = [] := by
  obtain ⟨privPEM, hpr⟩ := ht.hexPrivateKeyToPem_ok (config.privateKeyHex.getD "")
  obtain ⟨pubPEM, hpu⟩ := ht.hexToPem_ok (config.publicKeyHex.getD "")
  obtain ⟨signer, hsg⟩ :=
    ht.signerCreate_ok privPEM pubPEM (orDefault config.«alias» "unknown" ++ "-signer")
  obtain ⟨key, hk⟩ := ht.createKey_ok signer
  obtain ⟨didU, hdu⟩ :=
    ht.didCreate_ok (config.publicKeyHex.getD "") (orDefault config.«alias» "unknown")
  refine ⟨⟨{ dna := ⟨"identity", "1.0.0"⟩
             «alias» := orDefault config.«alias» "unknown"
             did := orDefault config.did "did:key:unknown"
             kid := orDefault config.kid (config.publicKeyHex.getD "")
             publicKeyHex := config.publicKeyHex.getD ""
             privateKeyHex := config.privateKeyHex
             provider := orDefault config.provider "did:key"
             credential := config.credential.getD CredentialVal.empty
             metadata := config.metadata.getD []
             createdAt := config.createdAt.getD env.now
             didUnit := didU
             signerUnit := signer
             keyUnit := key
             credentialUnit := env.credentialCreate.learnKey key }, []⟩,
    ?_, rfl, rfl, rfl, rfl, rfl, rfl, rfl, rfl, rfl, rfl⟩
  simp [Identity.create, createBody, tryCatch, ha, hd, hpub, hpriv, hpr, hpu, hsg, hk, hdu]

/-- C6: given a valid config, create takes did and publicKeyHex verbatim
(no re-derivation), defaults kid to the config public-key hex when
unspecified, carries the config credential verbatim or uses the empty
placeholder when absent, and issues no credential — its outcome is
unchanged under any replacement of the external issuance function. -/
theorem c6_create_assembles_record_from_config (env : Env) (config : IdentityConfig)
    (ht : EnvTotal env)
    (ha : strFalsy config.«alias» = false) (hd : strFalsy config.did = false)
    (hpub : strFalsy config.publicKeyHex = false)
    (hpriv : strFalsy config.privateKeyHex = false) :
    ∃ j : Identity, Identity.create env config = Result.success j ∧
      (∀ d, config.did = some d → j.props.did = d) ∧
      j.props.publicKeyHex = config.publicKeyHex.getD "" ∧
      (config.kid = none → j.props.kid = config.publicKeyHex.getD "") ∧
      j.props.credential = config.credential.getD CredentialVal.empty ∧
      (∀ f, Identity.create { env with issueProof := f } config
        = Identity.create env config) := by
  obtain ⟨j, hc, hdid, hpub2, _, hkid, hcred, _, _, _, _, _⟩ :=
    create_valid_spec env config ht ha hd hpub hpriv
  refine ⟨j, hc, ?_, hpub2, ?_, hcred, fun f => rfl⟩
  · intro d hdd
    rw [hdid, hdd]
    have hde : d.isEmpty = false := by
      rw [hdd] at hd
      simpa [strFalsy] using hd
    simp [orDefault, hde]
  · intro hknone
    rw [hkid, hknone]
    rfl

/-- Witness for C6 at the concrete valid config. -/
theorem c6_witness :
    ∃ j : Identity, Identity.create env0 configFull = Result.success j ∧
      j.props.did = "did:key:zABC" ∧ j.props.publicKeyHex = "pubhex" ∧
      j.props.kid = "pubhex" ∧ j.props.credential = CredentialVal.empty := by
  obtain ⟨j, hc, hdid, hpub, hkid, hcred, _⟩ :=
    c6_create_assembles_record_from_config env0 configFull env0_total
      (by decide) (by decide) (by decide) (by decide)
  exact ⟨j, hc, hdid "did:key:zABC" rfl, hpub, hkid rfl, hcred⟩

/-- Inversion of a successful generate: the assembled props hold the given
alias, a non-empty DID string and public-key hex, private-key material,
kid equal to the public-key hex, the did:key provider, and a credential
whose issuer is the DID and whose subject names the DID and alias as both
holder and issuedBy. -/
theorem generate_success_spec (env : Env) («alias» : String) (i : Identity)
    (h : Identity.generate env «alias» = Result.success i) :
    i.props.«alias» = «alias» ∧
    i.props.did.isEmpty = false ∧
    i.props.publicKeyHex.isEmpty = false ∧
    (∃ pk, i.props.privateKeyHex = some pk) ∧
    i.props.kid = i.props.publicKeyHex ∧
    i.props.provider = "did:key" ∧
    (∃ c : VC, i.props.credential = CredentialVal.vc c ∧
      c.issuer = i.props.did ∧
      c.subject = ⟨⟨i.props.did, «alias»⟩, ⟨i.props.did, «alias»⟩⟩) := by
  have hb : generateBody env «alias» = Except.ok (Result.success i) := by
    unfold Identity.generate tryCatch at h
    split at h
    · next r heq => rw [h] at heq; exact heq
    · next e heq => exact Result.noConfusion h
  unfold generateBody at hb
  rcases hkp : env.generateKeyPair with _ | keyPair <;> rw [hkp] at hb
  · exact Except.noConfusion hb
  try dsimp only at hb
  rcases hpu : env.hexToPem keyPair.publicKey with _ | publicKeyPEM <;> rw [hpu] at hb
  · try dsimp only at hb
    exact Except.noConfusion hb
  rcases hpr : env.hexPrivateKeyToPem keyPair.privateKey
      with _ | privateKeyPEM <;> rw [hpr] at hb
  · try dsimp only at hb
    exact Except.noConfusion hb
  try dsimp only at hb
  rcases hsg : env.signerCreate privateKeyPEM publicKeyPEM («alias» ++ "-signer")
      with _ | signer <;> rw [hsg] at hb
  · try dsimp only at hb
    exact Except.noConfusion hb
  try dsimp only at hb
  rcases hk : env.createKey signer with _ | key <;> rw [hk] at hb
  · try dsimp only at hb
    exact Except.noConfusion hb
  try dsimp only at hb
  cases hpe : signer.publicKeyHex.isEmpty
  case true =>
    rw [hpe] at hb
    simp at hb
  case false =>
  rw [hpe] at hb
  simp only [Bool.false_eq_true, if_false] at hb
  try dsimp only at hb
  rcases hdu : env.didCreate signer.publicKeyHex «alias»
      with _ | didUnit <;> rw [hdu] at hb
  · try dsimp only at hb
    exact Except.noConfusion hb
  try dsimp only at hb
  cases hge : didUnit.generateKey.isEmpty
  case true =>
    rw [hge] at hb
    simp at hb
  case false =>
  rw [hge] at hb
  simp only [Bool.false_eq_true, if_false] at hb
  try dsimp only at hb
  rcases hic : CredentialUnit.issueCredential env (env.credentialCreate.learnKey key)
      ⟨⟨didUnit.generateKey, «alias»⟩, ⟨didUnit.generateKey, «alias»⟩⟩
      "IdentityCredential" didUnit.generateKey with c | ⟨m, cpf⟩ <;> rw [hic] at hb
  · try dsimp only at hb
    have hcprops : c.subject
          = ⟨⟨didUnit.generateKey, «alias»⟩, ⟨didUnit.generateKey, «alias»⟩⟩ ∧
        c.issuer = didUnit.generateKey := by
      unfold CredentialUnit.issueCredential at hic
      split at hic
      · next p heq =>
        cases hic
        exact ⟨rfl, rfl⟩
      · next m2 cause heq => exact Result.noConfusion hic
    simp only [Except.ok.injEq, Result.success.injEq] at hb
    subst hb
    exact ⟨rfl, hge, hpe, ⟨keyPair.privateKey, rfl⟩, rfl, rfl,
      c, rfl, hcprops.2, hcprops.1⟩
  · try dsimp only at hb
    simp at hb

/-- C9: every successful generate stores a credential issued with the new
DID as issuer whose subject holder id and issuedBy id both equal that DID
and whose holder and issuedBy names are the given alias. -/
theorem c9_generate_credential_self_signed (env : Env) («alias» : String) (i : Identity)
    (h : Identity.generate env «alias» = Result.success i) :
    ∃ c : VC, i.props.credential = CredentialVal.vc c ∧
      c.issuer = i.props.did ∧
      c.subject.holder.id = i.props.did ∧ c.subject.issuedBy.id = i.props.did ∧
      c.subject.holder.name = «alias» ∧ c.subject.issuedBy.name = «alias» := by
  obtain ⟨-, -, -, -, -, -, c, hc, hi, hs⟩ := generate_success_spec env «alias» i h
  exact ⟨c, hc, hi, by rw [hs], by rw [hs], by rw [hs], by rw [hs]⟩

/-- Witness for C9: the credential of the concretely generated identity is
self-signed in the stated sense. -/
theorem c9_witness :
    ∃ c : VC,
      ((Identity.generate env0 "alice").getOr fallbackIdentity).props.credential
        = CredentialVal.vc c ∧
      c.issuer = ((Identity.generate env0 "alice").getOr fallbackIdentity).props.did ∧
      c.subject.holder.id
        = ((Identity.generate env0 "alice").getOr fallbackIdentity).props.did ∧
      c.subject.issuedBy.id
        = ((Identity.generate env0 "alice").getOr fallbackIdentity).props.did ∧
      c.subject.holder.name = "alice" ∧ c.subject.issuedBy.name = "alice" :=
  c9_generate_credential_self_signed env0 "alice"
    ((Identity.generate env0 "alice").getOr fallbackIdentity) rfl

/-- C5 counterexample: generate accepts the empty alias and succeeds, but
feeding the resulting domain record back into create fails the validation
gate, so the round trip does not yield an Identity at all. -/
theorem c5_counterexample :
    (Identity.generate env0 "").isSuccess = true ∧
    Identity.create env0
        ((Identity.generate env0 "").getOr fallbackIdentity).toDomainConfig
      = Result.fail requiredFieldsMsg none :=
  ⟨rfl, rfl⟩

/-- C5 amended: for an identity produced by a successful generate whose
alias is non-empty and whose generated private-key hex is non-empty,
feeding toDomain() into create (under an environment whose external calls
succeed) yields an Identity with the same DID string and public-key hex. -/
theorem c5_roundtrip_preserves_did_and_key (env : Env) («alias» : String) (i : Identity)
    (ht : EnvTotal env)
    (hgen : Identity.generate env «alias» = Result.success i)
    (halias : «alias».isEmpty = false)
    (hpriv : strFalsy i.props.privateKeyHex = false) :
    ∃ j : Identity, Identity.create env i.toDomainConfig = Result.success j ∧
      j.props.did = i.props.did ∧ j.props.publicKeyHex = i.props.publicKeyHex := by
  obtain ⟨hA, hD, hP, -, -, -, -⟩ := generate_success_spec env «alias» i hgen
  have ha2 : strFalsy i.toDomainConfig.«alias» = false := by
    simp [Identity.toDomainConfig, IIdentityRec.asConfig, Identity.toDomain,
      strFalsy, hA, halias]
  have hd2 : strFalsy i.toDomainConfig.did = false := by
    simp [Identity.toDomainConfig, IIdentityRec.asConfig, Identity.toDomain,
      strFalsy, hD]
  have hpub2 : strFalsy i.toDomainConfig.publicKeyHex = false := by
    simp [Identity.toDomainConfig, IIdentityRec.asConfig, Identity.toDomain,
      strFalsy, hP]
  have hpriv2 : strFalsy i.toDomainConfig.privateKeyHex = false := hpriv
  obtain ⟨j, hc, hdid, hpub3, -, -, -, -, -, -, -⟩ :=
    create_valid_spec env i.toDomainConfig ht ha2 hd2 hpub2 hpriv2
  refine ⟨j, hc, ?_, ?_⟩
  · rw [hdid]
    simp [Identity.toDomainConfig, IIdentityRec.asConfig, Identity.toDomain,
      orDefault, hD]
  · rw [hpub3]
    simp [Identity.toDomainConfig, IIdentityRec.asConfig, Identity.toDomain]

/-- Witness for C5 (amended): the concrete generate/create round trip
preserves DID and public-key hex. -/
theorem c5_witness :
    ∃ j : Identity,
      Identity.create env0
          ((Identity.generate env0 "alice").getOr fallbackIdentity).toDomainConfig
        = Result.success j ∧
      j.props.did = ((Identity.generate env0 "alice").getOr fallbackIdentity).props.did ∧
      j.props.publicKeyHex
        = ((Identity.generate env0 "alice").getOr fallbackIdentity).props.publicKeyHex :=
  c5_roundtrip_preserves_did_and_key env0 "alice"
    ((Identity.generate env0 "alice").getOr fallbackIdentity)
    env0_total rfl (by decide) (by decide)

end SynetIdentity
